import Mathlib

/-!
Verification of the products REST API (Express + express-validator + Sequelize).

The embedding models:
* JSON body values (`JVal`) and the express-validator rules declared in
  `router.ts` (`notEmpty`, `isNumeric`, `isInt`, `isBoolean`, the custom
  `value > 0` check), including the JavaScript string/number coercions the
  validators rely on;
* the product store as a list of rows plus a next-id counter;
* the six route pipelines of `router.ts` (validators, then the
  `handleInputErrors` gate, then the handler);
* the CORS origin callback and `connectDB` from `server.ts`.

Numbers are modelled as rationals with a plain decimal/sign rendering;
exponent and hexadecimal notations of IEEE doubles are outside the model
(the upstream `isNumeric` rule rejects such strings, and JSON bodies carry
only finite numerals).
-/

namespace ProductsApi

/-- A JSON value as it appears in a request body field. -/
inductive JVal where
  | str (s : String)
  | num (q : Rat)
  | bool (b : Bool)
  | null
  deriving DecidableEq, Repr

/-- Digit characters of a natural number, most significant first, pushed onto
an accumulator. -/
def natReprAux : Nat → List Char → List Char
  | 0, acc => acc
  | n + 1, acc => natReprAux ((n + 1) / 10) (Char.ofNat (48 + (n + 1) % 10) :: acc)
decreasing_by exact Nat.div_lt_self (Nat.succ_pos n) (by decide)

/-- Decimal digit characters of a natural number (`0` renders as `"0"`). -/
def natReprChars (n : Nat) : List Char :=
  if n = 0 then ['0'] else natReprAux n []

/-- Decimal rendering of an integer, with a leading minus sign when negative. -/
def intReprChars (i : Int) : List Char :=
  if i < 0 then '-' :: natReprChars i.natAbs else natReprChars i.natAbs

/-- Rendering of a rational number: plain integer when the denominator is one,
`num/den` otherwise.  This stands in for the JavaScript number-to-string
conversion; the claims only rely on the rendering being non-empty. -/
def ratReprChars (q : Rat) : List Char :=
  if q.den = 1 then intReprChars q.num
  else intReprChars q.num ++ '/' :: natReprChars q.den

def ratRepr (q : Rat) : String := ⟨ratReprChars q⟩

/-- express-validator coerces a field value to a string before running the
validator.js checks: a missing field (undefined) and null become `""`,
booleans become `"true"`/`"false"`, numbers their decimal rendering. -/
def evToString : Option JVal → String
  | none => ""
  | some .null => ""
  | some (.str s) => s
  | some (.num q) => ratRepr q
  | some (.bool b) => if b then "true" else "false"

/-- validator.js `isNumeric` (no options): the string must match
`[+-]? ( digits* "." )? digits+` — an optional sign, an optional integer part
followed by a dot, and a mandatory digit run. -/
def isNumericBody (cs : List Char) : Bool :=
  let intPart := cs.takeWhile Char.isDigit
  let rest := cs.dropWhile Char.isDigit
  match rest with
  | [] => !intPart.isEmpty
  | '.' :: frac => !frac.isEmpty && frac.all Char.isDigit
  | _ => false

def isNumericStr (s : String) : Bool :=
  match s.data with
  | [] => false
  | c :: rest => isNumericBody (if c = '+' || c = '-' then rest else c :: rest)

/-- validator.js `isInt` (no options): `[+-]? digits+`. -/
def isIntStr (s : String) : Bool :=
  match s.data with
  | [] => false
  | c :: rest =>
    let ds := if c = '+' || c = '-' then rest else c :: rest
    !ds.isEmpty && ds.all Char.isDigit

/-- Value of a digit run, most significant first. -/
def digitsVal (cs : List Char) : Nat :=
  cs.foldl (fun a c => a * 10 + (c.toNat - 48)) 0

/-- Value of an unsigned decimal body `digits* [ "." digits+ ]`; `none` when
the characters do not have that shape. -/
def parseDecimal (cs : List Char) : Option Rat :=
  let intPart := cs.takeWhile Char.isDigit
  let rest := cs.dropWhile Char.isDigit
  match rest with
  | [] => if cs.isEmpty then none else some (digitsVal intPart : Rat)
  | '.' :: frac =>
    if !frac.isEmpty && frac.all Char.isDigit then
      some ((digitsVal intPart : Rat) + (digitsVal frac : Rat) / (10 : Rat) ^ frac.length)
    else none
  | _ => none

/-- JavaScript `Number(string)`: trimmed empty string is `0`, otherwise an
optionally signed decimal numeral; `none` models NaN.  Exponent, hexadecimal
and `Infinity` forms are out of scope (see the header note). -/
def jsStrToNumber (s : String) : Option Rat :=
  let t := s.trim
  if t = "" then some 0
  else
    match t.data with
    | '+' :: rest => parseDecimal rest
    | '-' :: rest => (parseDecimal rest).map Neg.neg
    | cs => parseDecimal cs

/-- JavaScript coercion of a raw body value to a number (`none` models NaN):
undefined is NaN, null is `0`, booleans are `1`/`0`. -/
def jsToNumber : Option JVal → Option Rat
  | none => none
  | some .null => some 0
  | some (.bool b) => some (if b then 1 else 0)
  | some (.num q) => some q
  | some (.str s) => jsStrToNumber s

/-- `notEmpty()`: the coerced string is non-empty. -/
def notEmptyV (v : Option JVal) : Bool :=
  evToString v != ""

/-- `isNumeric()`: runs on the coerced string; a number value always
stringifies to a numeric literal, a boolean to `"true"`/`"false"`. -/
def isNumericV : Option JVal → Bool
  | none => false
  | some .null => false
  | some (.str s) => isNumericStr s
  | some (.num _) => true
  | some (.bool _) => false

/-- The custom rule `value => value > 0`: JavaScript `>` coerces the raw value
to a number and NaN comparisons are false. -/
def gtZeroV (v : Option JVal) : Bool :=
  match jsToNumber v with
  | some q => decide (0 < q)
  | none => false

/-- validator.js `isBoolean` (loose): the coerced string must be one of
`"true"`, `"false"`, `"0"`, `"1"`; the numbers `0` and `1` stringify into the
last two. -/
def isBooleanV : Option JVal → Bool
  | none => false
  | some .null => false
  | some (.bool _) => true
  | some (.str s) => s == "true" || s == "false" || s == "0" || s == "1"
  | some (.num q) => decide (q = 0) || decide (q = 1)

/-- A request body for the product routes: each declared field either absent
or a JSON value. -/
structure ReqBody where
  name : Option JVal
  price : Option JVal
  availability : Option JVal
  deriving DecidableEq, Repr

/-- One accumulated validation failure, as serialized in the 400 response. -/
structure FieldError where
  field : String
  message : String
  deriving DecidableEq, Repr

/-- `body('name').notEmpty().withMessage('El nombre de Producto no puede ir vacio')` -/
def checkName (b : ReqBody) : List FieldError :=
  if notEmptyV b.name then [] else [⟨"name", "El nombre de Producto no puede ir vacio"⟩]

/-- The `body('price')` chain: `isNumeric`, `notEmpty`, then the custom
strict-positivity rule; every failing rule contributes its own error. -/
def checkPrice (b : ReqBody) : List FieldError :=
  (if isNumericV b.price then [] else [⟨"price", "Precio no valido"⟩]) ++
  (if notEmptyV b.price then [] else [⟨"price", "El precio de Producto no puede ir vacio"⟩]) ++
  (if gtZeroV b.price then [] else [⟨"price", "Precio no valido"⟩])

/-- `body('availability').isBoolean().withMessage('Valor para Disponibilidad no valido')` -/
def checkAvailability (b : ReqBody) : List FieldError :=
  if isBooleanV b.availability then [] else [⟨"availability", "Valor para Disponibilidad no valido"⟩]

/-- `param('id').isInt().withMessage('ID no Válido')` -/
def checkId (idp : String) : List FieldError :=
  if isIntStr idp then [] else [⟨"id", "ID no Válido"⟩]

/-- A stored product row. -/
structure Product where
  id : Int
  name : String
  price : Rat
  availability : Bool
  deriving DecidableEq, Repr

/-- The product table: the rows plus the next id the storage will assign. -/
structure Store where
  rows : List Product
  nextId : Int
  deriving DecidableEq, Repr

/-- Body of an HTTP response from the API. -/
inductive RespBody where
  | products (ps : List Product)
  | product (p : Product)
  | errors (es : List FieldError)
  | message (m : String)
  deriving DecidableEq, Repr

structure Response where
  status : Nat
  body : RespBody
  deriving DecidableEq, Repr

/-- Integer denoted by a `[+-]? digits+` path parameter (the shape the `isInt`
rule guarantees before any handler reads it). -/
def parseIntD (s : String) : Int :=
  match s.data with
  | '+' :: rest => (digitsVal rest : Int)
  | '-' :: rest => -(digitsVal rest : Int)
  | cs => (digitsVal cs : Int)

/-- JavaScript `String(value)` as applied when persisting a submitted name
into the text column. -/
def storedName : Option JVal → String
  | none => "undefined"
  | some .null => "null"
  | some (.str s) => s
  | some (.num q) => ratRepr q
  | some (.bool b) => if b then "true" else "false"

/-- Numeric coercion applied when persisting a submitted price; the NaN case
cannot reach a handler because the price rules run first. -/
def storedPrice (v : Option JVal) : Rat :=
  (jsToNumber v).getD 0

/-- Boolean coercion applied when persisting a submitted availability; the
`isBoolean` rule restricts the value to booleans, `"true"`/`"false"`/`"0"`/`"1"`
and the numbers `0`/`1` before a handler reads it. -/
def storedBool : Option JVal → Bool
  | some (.bool b) => b
  | some (.str s) => s == "true" || s == "1"
  | some (.num q) => decide (q ≠ 0)
  | _ => false

/-- Row lookup by primary key (`findByPk`). -/
def findRow (i : Int) (s : Store) : Option Product :=
  s.rows.find? (fun p => p.id == i)

/-- Per-row effect of the full update: the row with the matching id gets the
submitted name, price and availability; other rows are untouched. -/
def overwriteWith (b : ReqBody) (i : Int) (r : Product) : Product :=
  if r.id == i then
    { r with name := storedName b.name, price := storedPrice b.price,
             availability := storedBool b.availability }
  else r

/-- Per-row effect of the availability patch: the row with the matching id has
its availability negated; other rows are untouched. -/
def toggleAt (i : Int) (r : Product) : Product :=
  if r.id == i then { r with availability := !r.availability } else r

/-- Rows ordered by `id` ascending. -/
def sortById (ps : List Product) : List Product :=
  ps.mergeSort (fun p q => decide (p.id ≤ q.id))

/-- Modelled from the spec: `getProducts` (handlers/product.ts is not under
src/) — "fetch all rows, ordered by `id` ascending", responding 200 with the
array of products. -/
def getProducts (s : Store) : Response × Store :=
  ({ status := 200, body := .products (sortById s.rows) }, s)

/-- Modelled from the spec: `getProductById` — "fetch one row by id",
200 with the product, 404 if no row matches. -/
def getProductById (i : Int) (s : Store) : Response × Store :=
  match findRow i s with
  | none => ({ status := 404, body := .message "Producto No Encontrado" }, s)
  | some p => ({ status := 200, body := .product p }, s)

/-- Modelled from the spec: `createProduct` — "insert new row, availability
defaults true", id system-assigned, responding 201 with the created product. -/
def createProduct (b : ReqBody) (s : Store) : Response × Store :=
  let p : Product :=
    { id := s.nextId, name := storedName b.name, price := storedPrice b.price,
      availability := true }
  ({ status := 201, body := .product p },
   { rows := s.rows ++ [p], nextId := s.nextId + 1 })

/-- Modelled from the spec: `updateProduct` — "fetch row by id; if absent
return 404; else overwrite all four fields and persist", 200 with the updated
product. -/
def updateProduct (i : Int) (b : ReqBody) (s : Store) : Response × Store :=
  match findRow i s with
  | none => ({ status := 404, body := .message "Producto No Encontrado" }, s)
  | some p =>
    ({ status := 200,
       body := .product { p with name := storedName b.name,
                                 price := storedPrice b.price,
                                 availability := storedBool b.availability } },
     { s with rows := s.rows.map (overwriteWith b i) })

/-- Modelled from the spec: `updateAvailability` — "fetch row by id; if absent
return 404; else toggle `availability` to its logical negation and persist",
200 with the updated product. -/
def updateAvailability (i : Int) (s : Store) : Response × Store :=
  match findRow i s with
  | none => ({ status := 404, body := .message "Producto No Encontrado" }, s)
  | some p =>
    ({ status := 200, body := .product { p with availability := !p.availability } },
     { s with rows := s.rows.map (toggleAt i) })

/-- Modelled from the spec: `deleteProduct` — "fetch row by id; if absent
return 404; else remove row", 200 with a confirmation message. -/
def deleteProduct (i : Int) (s : Store) : Response × Store :=
  match findRow i s with
  | none => ({ status := 404, body := .message "Producto No Encontrado" }, s)
  | some _ =>
    ({ status := 200, body := .message "Producto Eliminado" },
     { s with rows := s.rows.filter (fun p => !(p.id == i)) })

/-- Modelled from the spec: `handleInputErrors` (middleware/index.ts is not
under src/) — "given the accumulated list of per-field validation failures for
the current request, if the list is non-empty, respond immediately with a
400-class status and a structured list of {field, message} pairs, and do not
invoke the downstream handler; otherwise invoke the handler unchanged". -/
def handleInputErrors (errs : List FieldError) (handler : Store → Response × Store)
    (s : Store) : Response × Store :=
  match errs with
  | [] => handler s
  | _ => ({ status := 400, body := .errors errs }, s)

/-- `router.get('/', getProducts)` — no validation rules are declared. -/
def listRoute (s : Store) : Response × Store :=
  getProducts s

/-- `router.get('/:id', param('id').isInt() ..., handleInputErrors, getProductById)` -/
def getByIdRoute (idp : String) (s : Store) : Response × Store :=
  handleInputErrors (checkId idp) (getProductById (parseIntD idp)) s

/-- `router.post('/', name and price rules, handleInputErrors, createProduct)` -/
def postRoute (b : ReqBody) (s : Store) : Response × Store :=
  handleInputErrors (checkName b ++ checkPrice b) (createProduct b) s

/-- `router.put('/:id', id, name, price and availability rules, handleInputErrors, updateProduct)` -/
def putRoute (idp : String) (b : ReqBody) (s : Store) : Response × Store :=
  handleInputErrors (checkId idp ++ checkName b ++ checkPrice b ++ checkAvailability b)
    (updateProduct (parseIntD idp) b) s

/-- `router.patch('/:id', param('id').isInt() ..., handleInputErrors, updateAvailability)` -/
def patchRoute (idp : String) (s : Store) : Response × Store :=
  handleInputErrors (checkId idp) (updateAvailability (parseIntD idp)) s

/-- `router.delete('/:id', param('id').isInt() ..., handleInputErrors, deleteProduct)` -/
def deleteRoute (idp : String) (s : Store) : Response × Store :=
  handleInputErrors (checkId idp) (deleteProduct (parseIntD idp)) s

/-- One request to the `/api/products` router. -/
inductive ApiRequest where
  | list
  | getById (idp : String)
  | post (b : ReqBody)
  | put (idp : String) (b : ReqBody)
  | patch (idp : String)
  | delete (idp : String)
  deriving DecidableEq, Repr

/-- The route table of `router.ts`. -/
def dispatch : ApiRequest → Store → Response × Store
  | .list, s => listRoute s
  | .getById idp, s => getByIdRoute idp s
  | .post b, s => postRoute b s
  | .put idp b, s => putRoute idp b s
  | .patch idp, s => patchRoute idp s
  | .delete idp, s => deleteRoute idp s

/-- `const whitelist = [process.env.FRONTEND_URL, 'http://localhost:5173']`
(server.ts); `FRONTEND_URL` may be unset. -/
def whitelist (frontendUrl : Option String) : List (Option String) :=
  [frontendUrl, some "http://localhost:5173"]

/-- JavaScript truthiness test `!origin`: true for a missing Origin header
(undefined) and for the empty string. -/
def originFalsy : Option String → Bool
  | none => true
  | some s => s == ""

/-- The `corsOptions.origin` callback of server.ts:
`if (!origin || whitelist.includes(origin)) callback(null, true) else callback(new Error(...))`. -/
def corsOriginAllowed (frontendUrl : Option String) (origin : Option String) : Bool :=
  originFalsy origin || (whitelist frontendUrl).contains origin

/-- The server pipeline of server.ts: the CORS middleware is installed before
the router, so a rejected origin produces an error response and the route is
never reached. -/
def serverHandle (frontendUrl : Option String) (origin : Option String)
    (route : Store → Response × Store) (s : Store) : Response × Store :=
  if corsOriginAllowed frontendUrl origin then route s
  else ({ status := 500, body := .message "Error de cors" }, s)

/-- Observable outcome of running `connectDB` once. -/
structure ConnectOutcome where
  logs : List String
  processExited : Bool
  attempts : Nat
  deriving DecidableEq, Repr

/-- `connectDB` from server.ts: one `db.authenticate()` attempt; on failure
the catch block only logs, with no retry and no process exit. -/
def connectDB (auth : Except String Unit) : ConnectOutcome :=
  match auth with
  | .ok _ => { logs := [], processExited := false, attempts := 1 }
  | .error _ =>
    { logs := ["Hubo un error al conectar a la BD"], processExited := false, attempts := 1 }

/-- All stored rows satisfy the data-model invariants: strictly positive price
and non-empty name. -/
def GoodStore (s : Store) : Prop :=
  ∀ p ∈ s.rows, 0 < p.price ∧ p.name ≠ ""

theorem natReprAux_length_le (n : Nat) :
    ∀ acc : List Char, acc.length ≤ (natReprAux n acc).length := by
  induction n using Nat.strong_induction_on with
  | _ n ih =>
    intro acc
    match n with
    | 0 => simp [natReprAux]
    | m + 1 =>
      rw [natReprAux]
      have h := ih ((m + 1) / 10) (Nat.div_lt_self (Nat.succ_pos m) (by decide))
        (Char.ofNat (48 + (m + 1) % 10) :: acc)
      simp only [List.length_cons] at h
      omega

theorem natReprChars_ne_nil (n : Nat) : natReprChars n ≠ [] := by
  unfold natReprChars
  cases n with
  | zero => simp
  | succ m =>
    simp only [Nat.succ_ne_zero, if_false]
    rw [natReprAux]
    intro hc
    have h := natReprAux_length_le ((m + 1) / 10) [Char.ofNat (48 + (m + 1) % 10)]
    rw [hc] at h
    simp at h

theorem intReprChars_ne_nil (i : Int) : intReprChars i ≠ [] := by
  unfold intReprChars
  split
  · simp
  · exact natReprChars_ne_nil _

theorem ratReprChars_ne_nil (q : Rat) : ratReprChars q ≠ [] := by
  unfold ratReprChars
  split
  · exact intReprChars_ne_nil _
  · intro h
    exact intReprChars_ne_nil q.num (List.append_eq_nil.mp h).1

theorem ratRepr_ne_empty (q : Rat) : ratRepr q ≠ "" := by
  intro h
  exact ratReprChars_ne_nil q (congrArg String.data h)

theorem storedName_ne_empty (v : Option JVal) (h : notEmptyV v = true) :
    storedName v ≠ "" := by
  match v with
  | none => simp [notEmptyV, evToString] at h
  | some .null => simp [notEmptyV, evToString] at h
  | some (.str s) =>
    simp only [notEmptyV, evToString, bne_iff_ne, ne_eq, decide_eq_true_eq] at h
    simpa [storedName] using h
  | some (.num q) => simpa [storedName] using ratRepr_ne_empty q
  | some (.bool b) => cases b <;> simp [storedName]

theorem storedPrice_pos (v : Option JVal) (h : gtZeroV v = true) :
    0 < storedPrice v := by
  unfold gtZeroV at h
  unfold storedPrice
  cases hj : jsToNumber v with
  | none => rw [hj] at h; simp at h
  | some q => rw [hj] at h; simpa using h

theorem checkName_nil (b : ReqBody) (h : checkName b = []) :
    notEmptyV b.name = true := by
  cases hx : notEmptyV b.name with
  | false => simp [checkName, hx] at h
  | true => rfl

theorem checkPrice_nil_gtZero (b : ReqBody) (h : checkPrice b = []) :
    gtZeroV b.price = true := by
  cases hx : gtZeroV b.price with
  | false => simp [checkPrice, hx] at h
  | true => rfl

theorem toggleAt_id (i : Int) (r : Product) : (toggleAt i r).id = r.id := by
  unfold toggleAt
  split <;> rfl

theorem toggleAt_toggleAt (i : Int) (r : Product) : toggleAt i (toggleAt i r) = r := by
  cases r with
  | mk rid rname rprice ravail =>
    by_cases h : rid = i <;> simp [toggleAt, h]

theorem map_toggleAt_toggleAt (i : Int) (rows : List Product) :
    (rows.map (toggleAt i)).map (toggleAt i) = rows := by
  induction rows with
  | nil => rfl
  | cons r rs ih => simp [toggleAt_toggleAt, ih]

theorem patchRoute_found (idp : String) (s : Store) (p : Product)
    (hcheck : checkId idp = []) (hfind : findRow (parseIntD idp) s = some p) :
    patchRoute idp s =
      ({ status := 200, body := .product { p with availability := !p.availability } },
       { s with rows := s.rows.map (toggleAt (parseIntD idp)) }) := by
  simp [patchRoute, hcheck, handleInputErrors, updateAvailability, hfind]

theorem find_map_toggleAt (i : Int) (rows : List Product) (p : Product)
    (h : rows.find? (fun r => r.id == i) = some p) :
    (rows.map (toggleAt i)).find? (fun r => r.id == i) = some (toggleAt i p) := by
  induction rows with
  | nil => simp at h
  | cons r rs ih =>
    rw [List.find?_cons] at h
    simp only [List.map_cons, List.find?_cons, toggleAt_id]
    cases hr : (r.id == i) with
    | true =>
      rw [hr] at h
      simp only at h
      cases h
      rfl
    | false =>
      rw [hr] at h
      simp only at h
      exact ih h

/-- C1: for every request to a route that declares validation rules, if at
least one declared rule fails (the accumulated error list is non-empty) the
response is status 400 with the structured `{field, message}` list and the
downstream handler is never invoked (the outcome is the same for every
handler, and the store is unchanged); if no rule fails, the handler runs on
the request unchanged. -/
theorem gate_blocks_or_passes (errs : List FieldError)
    (k g : Store → Response × Store) (s : Store) :
    (errs ≠ [] →
      handleInputErrors errs k s = ({ status := 400, body := .errors errs }, s) ∧
      handleInputErrors errs k s = handleInputErrors errs g s) ∧
    (errs = [] → handleInputErrors errs k s = k s) := by
  cases errs <;> simp [handleInputErrors]

theorem gate_blocks_or_passes_witness :
    handleInputErrors [⟨"name", "m"⟩]
        (fun s => ({ status := 200, body := .message "ok" }, s)) ⟨[], 1⟩ =
      ({ status := 400, body := .errors [⟨"name", "m"⟩] }, ⟨[], 1⟩) :=
  ((gate_blocks_or_passes [⟨"name", "m"⟩]
      (fun s => ({ status := 200, body := .message "ok" }, s))
      (fun s => ({ status := 201, body := .message "other" }, s)) ⟨[], 1⟩).1
    (by simp)).1

/-- C9: when the startup database connection attempt fails, `connectDB` logs
the failure and the process keeps running with no working connection: there is
exactly one attempt (no retry) and no process exit. -/
theorem connectDB_failure_logged_no_exit (e : String) :
    (connectDB (.error e)).logs = ["Hubo un error al conectar a la BD"] ∧
    (connectDB (.error e)).processExited = false ∧
    (connectDB (.error e)).attempts = 1 := by
  simp [connectDB]

/-- C10: a request carrying no Origin header satisfies the CORS callback's
`!origin` test, so it is accepted and handled by the route even though its
origin is not a member of the allow-list. -/
theorem cors_missing_origin_accepted (fu : Option String)
    (route : Store → Response × Store) (s : Store) :
    corsOriginAllowed fu none = true ∧ serverHandle fu none route s = route s := by
  constructor
  · rfl
  · rfl

/-- C8 counterexample: a request whose Origin header is present but equal to
the empty string is accepted by the CORS callback (JavaScript `!origin` is
true for `""`) and reaches the route, although `""` is not on the allow-list
`[FRONTEND_URL, "http://localhost:5173"]`. -/
theorem cors_empty_origin_counterexample :
    corsOriginAllowed (some "https://example.com") (some "") = true ∧
    ¬ some "" ∈ whitelist (some "https://example.com") ∧
    serverHandle (some "https://example.com") (some "")
        (fun s => ({ status := 200, body := .message "reached route" }, s)) ⟨[], 1⟩ =
      ({ status := 200, body := .message "reached route" }, ⟨[], 1⟩) := by
  refine ⟨rfl, by decide, rfl⟩

/-- C8 (amended): for every request whose Origin header is present and
non-empty, the request is accepted exactly when the origin is on the
allow-list consisting of the configured FRONTEND_URL and
`http://localhost:5173`; every such request from any other origin is rejected
before reaching any route (the error response does not depend on the route and
the store is unchanged).  Requests with an absent or empty Origin header skip
the allow-list check. -/
theorem cors_allowlist_nonempty_origin (fu : Option String) (o : String)
    (route g : Store → Response × Store) (s : Store) (ho : o ≠ "") :
    (corsOriginAllowed fu (some o) = true ↔
      (some o = fu ∨ o = "http://localhost:5173")) ∧
    (corsOriginAllowed fu (some o) = false →
      serverHandle fu (some o) route s =
        ({ status := 500, body := .message "Error de cors" }, s) ∧
      serverHandle fu (some o) route s = serverHandle fu (some o) g s) := by
  constructor
  · simp [corsOriginAllowed, originFalsy, whitelist, ho, List.contains_cons, beq_iff_eq]
  · intro hrej
    simp [serverHandle, hrej]

theorem cors_allowlist_nonempty_origin_witness :
    ((corsOriginAllowed (some "https://app.example") (some "https://evil.example") = true ↔
      (some "https://evil.example" = some "https://app.example" ∨
        "https://evil.example" = "http://localhost:5173")) ∧
    (corsOriginAllowed (some "https://app.example") (some "https://evil.example") = false →
      serverHandle (some "https://app.example") (some "https://evil.example") listRoute ⟨[], 1⟩ =
        ({ status := 500, body := .message "Error de cors" }, ⟨[], 1⟩) ∧
      serverHandle (some "https://app.example") (some "https://evil.example") listRoute ⟨[], 1⟩ =
        serverHandle (some "https://app.example") (some "https://evil.example")
          (fun s => ({ status := 200, body := .message "ok" }, s)) ⟨[], 1⟩)) :=
  cors_allowlist_nonempty_origin (some "https://app.example") "https://evil.example"
    listRoute (fun s => ({ status := 200, body := .message "ok" }, s)) ⟨[], 1⟩ (by decide)

theorem post_errors_nil_iff (b : ReqBody) :
    checkName b ++ checkPrice b = [] ↔
      (notEmptyV b.name = true ∧ isNumericV b.price = true ∧
       notEmptyV b.price = true ∧ gtZeroV b.price = true) := by
  cases h1 : notEmptyV b.name <;> cases h2 : isNumericV b.price <;>
    cases h3 : notEmptyV b.price <;> cases h4 : gtZeroV b.price <;>
      simp [checkName, checkPrice, h1, h2, h3, h4]

/-- C2: a `POST /api/products` body with a non-positive numeric price, a
non-numeric price, or an empty (or missing) name is answered with status 400
and the store is left unchanged — no row is created. -/
theorem post_invalid_rejected (b : ReqBody) (s : Store)
    (hbad : notEmptyV b.name = false ∨ isNumericV b.price = false ∨
      ∃ q : Rat, b.price = some (.num q) ∧ q ≤ 0) :
    (postRoute b s).1.status = 400 ∧ (postRoute b s).2 = s := by
  have herrs : checkName b ++ checkPrice b ≠ [] := by
    intro h
    obtain ⟨h1, h2, h3, h4⟩ := (post_errors_nil_iff b).mp h
    rcases hbad with hb | hb | ⟨q, hq, hq0⟩
    · rw [h1] at hb; cases hb
    · rw [h2] at hb; cases hb
    · rw [hq] at h4
      simp only [gtZeroV, jsToNumber, decide_eq_true_eq] at h4
      exact absurd h4 (not_lt.mpr hq0)
  unfold postRoute
  cases he : checkName b ++ checkPrice b with
  | nil => exact absurd he herrs
  | cons a as => simp [handleInputErrors]

theorem post_invalid_rejected_witness :
    (postRoute ⟨some (.str "x"), some (.num (-3)), none⟩ ⟨[], 1⟩).1.status = 400 ∧
    (postRoute ⟨some (.str "x"), some (.num (-3)), none⟩ ⟨[], 1⟩).2 = ⟨[], 1⟩ :=
  post_invalid_rejected ⟨some (.str "x"), some (.num (-3)), none⟩ ⟨[], 1⟩
    (Or.inr (Or.inr ⟨-3, rfl, by norm_num⟩))

/-- C5: a `POST /api/products` body with a non-empty string name and a numeric
price strictly greater than zero is answered with status 201; the response
body is the created product, whose availability is `true` and whose id is the
next system-assigned id, distinct from every existing row's id. -/
theorem post_valid_created (b : ReqBody) (s : Store) (n : String) (q : Rat)
    (hname : b.name = some (.str n)) (hn : n ≠ "")
    (hprice : b.price = some (.num q)) (hq : 0 < q)
    (hwf : ∀ p ∈ s.rows, p.id < s.nextId) :
    (postRoute b s).1.status = 201 ∧
    (postRoute b s).1.body = .product ⟨s.nextId, n, q, true⟩ ∧
    ∀ p ∈ s.rows, p.id ≠ s.nextId := by
  have herrs : checkName b ++ checkPrice b = [] := by
    simp [checkName, checkPrice, notEmptyV, evToString, isNumericV, gtZeroV,
      jsToNumber, hname, hprice, hn, hq, ratRepr_ne_empty q]
  rw [postRoute, herrs]
  refine ⟨rfl, ?_, fun p hp => Int.ne_of_lt (hwf p hp)⟩
  simp [handleInputErrors, createProduct, storedName, storedPrice, jsToNumber,
    hname, hprice]

theorem post_valid_created_witness :
    (postRoute ⟨some (.str "Monitor"), some (.num 300), none⟩ ⟨[], 1⟩).1.status = 201 ∧
    (postRoute ⟨some (.str "Monitor"), some (.num 300), none⟩ ⟨[], 1⟩).1.body =
      .product ⟨1, "Monitor", 300, true⟩ ∧
    ∀ p ∈ ([] : List Product), p.id ≠ 1 :=
  post_valid_created ⟨some (.str "Monitor"), some (.num 300), none⟩ ⟨[], 1⟩
    "Monitor" 300 rfl (by decide) rfl (by norm_num) (by simp)

/-- C7: a `PUT /api/products/:id` request whose path parameter is an integer
matching no stored row and whose body is fully valid (non-empty string name,
positive numeric price, boolean availability) is answered with status 404 and
the store is left unchanged — no row is created or modified. -/
theorem put_missing_404 (idp : String) (b : ReqBody) (s : Store)
    (n : String) (q : Rat) (av : Bool)
    (hid : isIntStr idp = true)
    (hmiss : findRow (parseIntD idp) s = none)
    (hname : b.name = some (.str n)) (hn : n ≠ "")
    (hprice : b.price = some (.num q)) (hq : 0 < q)
    (hav : b.availability = some (.bool av)) :
    (putRoute idp b s).1.status = 404 ∧ (putRoute idp b s).2 = s := by
  have herrs : checkId idp ++ checkName b ++ checkPrice b ++ checkAvailability b = [] := by
    simp [checkId, checkName, checkPrice, checkAvailability, hid, notEmptyV,
      evToString, isNumericV, gtZeroV, jsToNumber, isBooleanV, hname, hprice,
      hav, hn, hq, ratRepr_ne_empty q]
  rw [putRoute, herrs]
  simp [handleInputErrors, updateProduct, hmiss]

theorem put_missing_404_witness :
    (putRoute "42" ⟨some (.str "n"), some (.num 3), some (.bool false)⟩ ⟨[], 1⟩).1.status = 404 ∧
    (putRoute "42" ⟨some (.str "n"), some (.num 3), some (.bool false)⟩ ⟨[], 1⟩).2 = ⟨[], 1⟩ :=
  put_missing_404 "42" ⟨some (.str "n"), some (.num 3), some (.bool false)⟩ ⟨[], 1⟩
    "n" 3 false (by decide) rfl rfl (by decide) rfl (by norm_num) rfl

/-- C6: `GET /api/products` always responds with status 200 and an array that
is a permutation of all stored rows, ordered by id ascending. -/
theorem list_returns_all_sorted (s : Store) :
    (listRoute s).1.status = 200 ∧
    ∃ l : List Product, (listRoute s).1.body = .products l ∧
      l.Pairwise (fun p r => p.id ≤ r.id) ∧ l.Perm s.rows := by
  refine ⟨rfl, sortById s.rows, rfl, ?_, List.mergeSort_perm s.rows _⟩
  have h := @List.sorted_mergeSort Product (fun p r : Product => decide (p.id ≤ r.id))
    (fun a b c hab hbc => by
      simp only [decide_eq_true_eq] at *
      exact le_trans hab hbc)
    (fun a b => by
      simp only [Bool.or_eq_true, decide_eq_true_eq]
      exact le_total a.id b.id)
    s.rows
  exact h.imp (fun hpq => by simpa using hpq)

/-- C4: a `PATCH /api/products/:id` request on an existing id responds 200
with the product whose availability is the logical negation of its previous
value, the stored row is negated the same way, and a second identical PATCH
restores the store exactly — the toggle is an involution. -/
theorem patch_toggles_and_involutive (idp : String) (s : Store) (p : Product)
    (hid : isIntStr idp = true)
    (hfind : findRow (parseIntD idp) s = some p) :
    (patchRoute idp s).1 =
      { status := 200, body := .product { p with availability := !p.availability } } ∧
    findRow (parseIntD idp) (patchRoute idp s).2 =
      some { p with availability := !p.availability } ∧
    (patchRoute idp (patchRoute idp s).2).2 = s := by
  have hcheck : checkId idp = [] := by simp [checkId, hid]
  have hf' : s.rows.find? (fun r => r.id == parseIntD idp) = some p := hfind
  have hpid : (p.id == parseIntD idp) = true := by
    have h := List.find?_some hf'
    simpa using h
  have htog : toggleAt (parseIntD idp) p = { p with availability := !p.availability } := by
    simp [toggleAt, hpid]
  have h1 := patchRoute_found idp s p hcheck hfind
  have hfind1 : findRow (parseIntD idp)
      ({ s with rows := s.rows.map (toggleAt (parseIntD idp)) } : Store) =
      some { p with availability := !p.availability } := by
    show (s.rows.map (toggleAt (parseIntD idp))).find? (fun r => r.id == parseIntD idp) = _
    rw [find_map_toggleAt _ _ _ hf', htog]
  have h2 := patchRoute_found idp { s with rows := s.rows.map (toggleAt (parseIntD idp)) }
    { p with availability := !p.availability } hcheck hfind1
  refine ⟨?_, ?_, ?_⟩
  · rw [h1]
  · rw [h1]; exact hfind1
  · rw [h1, h2]
    show ({ s with
      rows := (s.rows.map (toggleAt (parseIntD idp))).map (toggleAt (parseIntD idp)) } : Store) = s
    rw [map_toggleAt_toggleAt]

theorem patch_toggles_and_involutive_witness :
    (patchRoute "1" ⟨[⟨1, "a", 5, true⟩], 2⟩).1 =
      { status := 200, body := .product { id := 1, name := "a", price := 5,
                                          availability := !true } } ∧
    findRow (parseIntD "1") (patchRoute "1" ⟨[⟨1, "a", 5, true⟩], 2⟩).2 =
      some { id := 1, name := "a", price := 5, availability := !true } ∧
    (patchRoute "1" (patchRoute "1" ⟨[⟨1, "a", 5, true⟩], 2⟩).2).2 =
      ⟨[⟨1, "a", 5, true⟩], 2⟩ :=
  patch_toggles_and_involutive "1" ⟨[⟨1, "a", 5, true⟩], 2⟩ ⟨1, "a", 5, true⟩
    (by decide) (by decide)

theorem getProductById_snd (i : Int) (s : Store) : (getProductById i s).2 = s := by
  unfold getProductById
  cases findRow i s <;> rfl

theorem createProduct_good (b : ReqBody) (s : Store) (hs : GoodStore s)
    (hname : notEmptyV b.name = true) (hprice : gtZeroV b.price = true) :
    GoodStore (createProduct b s).2 := by
  intro p hp
  simp only [createProduct, List.mem_append, List.mem_singleton] at hp
  rcases hp with h | h
  · exact hs p h
  · subst h
    exact ⟨storedPrice_pos _ hprice, storedName_ne_empty _ hname⟩

theorem updateProduct_good (i : Int) (b : ReqBody) (s : Store) (hs : GoodStore s)
    (hname : notEmptyV b.name = true) (hprice : gtZeroV b.price = true) :
    GoodStore (updateProduct i b s).2 := by
  unfold updateProduct
  cases hf : findRow i s with
  | none => exact hs
  | some p =>
    intro r hr
    obtain ⟨r0, hr0, rfl⟩ := List.mem_map.mp hr
    unfold overwriteWith
    split
    · exact ⟨storedPrice_pos _ hprice, storedName_ne_empty _ hname⟩
    · exact hs r0 hr0

theorem updateAvailability_good (i : Int) (s : Store) (hs : GoodStore s) :
    GoodStore (updateAvailability i s).2 := by
  unfold updateAvailability
  cases hf : findRow i s with
  | none => exact hs
  | some p =>
    intro r hr
    obtain ⟨r0, hr0, rfl⟩ := List.mem_map.mp hr
    unfold toggleAt
    split
    · exact hs r0 hr0
    · exact hs r0 hr0

theorem deleteProduct_good (i : Int) (s : Store) (hs : GoodStore s) :
    GoodStore (deleteProduct i s).2 := by
  unfold deleteProduct
  cases hf : findRow i s with
  | none => exact hs
  | some p =>
    intro r hr
    exact hs r (List.mem_of_mem_filter hr)

/-- C3: every operation of the route table — list, get-by-id, create, update,
patch-availability, delete — preserves the store invariant that every stored
product has a strictly positive price and a non-empty name. -/
theorem every_operation_preserves_invariant (r : ApiRequest) (s : Store)
    (hs : GoodStore s) : GoodStore (dispatch r s).2 := by
  cases r with
  | list => exact hs
  | getById idp =>
    show GoodStore (handleInputErrors (checkId idp) _ s).2
    cases hc : checkId idp with
    | nil =>
      simp only [handleInputErrors]
      rw [getProductById_snd]
      exact hs
    | cons a as => exact hs
  | post b =>
    show GoodStore (handleInputErrors (checkName b ++ checkPrice b) _ s).2
    cases hc : checkName b ++ checkPrice b with
    | nil =>
      simp only [handleInputErrors]
      obtain ⟨hcn, hcp⟩ := List.append_eq_nil.mp hc
      exact createProduct_good b s hs (checkName_nil b hcn) (checkPrice_nil_gtZero b hcp)
    | cons a as => exact hs
  | put idp b =>
    show GoodStore
      (handleInputErrors (checkId idp ++ checkName b ++ checkPrice b ++ checkAvailability b) _ s).2
    cases hc : checkId idp ++ checkName b ++ checkPrice b ++ checkAvailability b with
    | nil =>
      simp only [handleInputErrors]
      obtain ⟨hc1, _⟩ := List.append_eq_nil.mp hc
      obtain ⟨hc2, hcp⟩ := List.append_eq_nil.mp hc1
      obtain ⟨_, hcn⟩ := List.append_eq_nil.mp hc2
      exact updateProduct_good (parseIntD idp) b s hs
        (checkName_nil b hcn) (checkPrice_nil_gtZero b hcp)
    | cons a as => exact hs
  | patch idp =>
    show GoodStore (handleInputErrors (checkId idp) _ s).2
    cases hc : checkId idp with
    | nil =>
      simp only [handleInputErrors]
      exact updateAvailability_good (parseIntD idp) s hs
    | cons a as => exact hs
  | delete idp =>
    show GoodStore (handleInputErrors (checkId idp) _ s).2
    cases hc : checkId idp with
    | nil =>
      simp only [handleInputErrors]
      exact deleteProduct_good (parseIntD idp) s hs
    | cons a as => exact hs

theorem every_operation_preserves_invariant_witness :
    GoodStore (dispatch (.post ⟨some (.str "Monitor"), some (.num 300), none⟩) ⟨[], 1⟩).2 :=
  every_operation_preserves_invariant (.post ⟨some (.str "Monitor"), some (.num 300), none⟩)
    ⟨[], 1⟩ (by intro p hp; cases hp)

end ProductsApi
